import Mathlib

/-! Shallow embedding of the VideoPlayer synchronization, drift-correction and
capture logic of the dubbing player component. Durations, positions, rates and
elapsed times are rationals: the model represents media elements whose metadata
has loaded with a finite duration, so the isFinite and "not Infinity" guards of
the source hold by representation; each such guard is noted where it occurs in
the embedded function. -/

/-- A media element (the video or the audio element), restricted to the fields
the player reads and writes: duration, currentTime, playbackRate, muted,
paused. -/
structure MediaEl where
  duration : ℚ
  currentTime : ℚ
  playbackRate : ℚ
  muted : Bool
  paused : Bool
deriving DecidableEq

/-- The pair of playback rates, mirroring the playbackRates state object with
fields video and audio (initial value video 1.0, audio 1.0). -/
structure Rates where
  video : ℚ
  audio : ℚ
deriving DecidableEq

/-- Component state of the player: the two element refs (none when the ref is
absent), the audioUrl prop (true when a dub audio URL is present), and the
React state fields isPlaying, isMuted, progress, duration, playbackRates,
isRecording, recordingProgress. -/
structure PlayerState where
  video : Option MediaEl
  audio : Option MediaEl
  audioUrl : Bool
  isPlaying : Bool
  isMuted : Bool
  progress : ℚ
  durationState : ℚ
  rates : Rates
  isRecording : Bool
  recordingProgress : ℚ
deriving DecidableEq

/-- Rate computation embedded from syncDurations (the spec names this
computation computeRates): if aDur > vDur the audio is sped up by
aDur / vDur and the video keeps 1.0; otherwise the video is sped up by
vDur / aDur and the audio keeps 1.0. -/
def computeRates (vDur aDur : ℚ) : Rates :=
  if aDur > vDur then { video := 1, audio := aDur / vDur }
  else { video := vDur / aDur, audio := 1 }

/-- The syncDurations handler: when both elements and the audio URL are
present and both durations are truthy (the "not Infinity" checks hold by
representation, truthiness of a duration is being nonzero), it computes the
rates, applies them to both elements, and forces the video muted; when the
audio element or the audio URL is missing, it resets the video rate to 1.0;
when the video ref is absent it does nothing. -/
def syncDurations (s : PlayerState) : PlayerState :=
  match s.video, s.audio, s.audioUrl with
  | some v, some a, true =>
    if v.duration ≠ 0 ∧ a.duration ≠ 0 then
      let r := computeRates v.duration a.duration
      { s with rates := r,
               video := some { v with playbackRate := r.video, muted := true },
               audio := some { a with playbackRate := r.audio },
               isMuted := true }
    else s
  | some v, _, _ => { s with video := some { v with playbackRate := 1 } }
  | none, _, _ => s

/-- The handleSeek handler at slider value pct: when the video ref is
present, it sets the video currentTime to (pct / 100) * videoDuration; when
the audio ref is present (its duration being finite holds by representation)
it sets the audio currentTime to (pct / 100) * audioDuration; it then stores
pct in the progress state. When the video ref is absent it does nothing. -/
def handleSeek (pct : ℚ) (s : PlayerState) : PlayerState :=
  match s.video with
  | none => s
  | some v =>
    let s₁ := { s with video := some { v with currentTime := pct / 100 * v.duration } }
    let s₂ :=
      match s₁.audio with
      | some a => { s₁ with audio := some { a with currentTime := pct / 100 * a.duration } }
      | none => s₁
    { s₂ with progress := pct }

/-- The handleTimeUpdate handler (the drift corrector): when the video ref is
present it stores the video duration in the duration state and, when that
duration is positive, stores the percentage progress; then, when the audio
ref and the audio URL are present, it compares the fractional progress of the
two tracks and, when the absolute difference exceeds 0.05 (the finiteness
check on the audio duration holds by representation), forces the audio
currentTime to videoPercent * audioDuration. The video element is never
written. -/
def handleTimeUpdate (s : PlayerState) : PlayerState :=
  match s.video with
  | none => s
  | some v =>
    let current := v.currentTime
    let dur := v.duration
    let s₁ := { s with durationState := dur,
                       progress := if 0 < dur then current / dur * 100 else s.progress }
    match s₁.audio, s₁.audioUrl with
    | some a, true =>
      let videoPercent := current / dur
      let audioPercent := a.currentTime / a.duration
      if 1 / 20 < |videoPercent - audioPercent| then
        { s₁ with audio := some { a with currentTime := videoPercent * a.duration } }
      else s₁
    | _, _ => s₁

/-- Modelled from the spec: the host media engine emits position-update ticks
of the video element only while it is playing (the drift corrector runs on
every position-update tick during the Playing state); a tick delivers the
timeupdate event to handleTimeUpdate, and no tick is delivered while
Paused. -/
def positionUpdateTick (s : PlayerState) : PlayerState :=
  if s.isPlaying then handleTimeUpdate s else s

/-- The toggleMute handler: when the video ref is present it flips the muted
flag of the video element and flips the mirrored isMuted state; nothing else
is touched. -/
def toggleMute (s : PlayerState) : PlayerState :=
  match s.video with
  | none => s
  | some v => { s with video := some { v with muted := !v.muted }, isMuted := !s.isMuted }

/-- Outcome of fetching the dub audio bytes and decoding them into a sample
buffer during the priming phase of a capture (the awaited fetch /
arrayBuffer / decodeAudioData sequence): either it succeeds or one of the
awaited steps rejects. -/
inductive FetchDecodeResult where
  | ok
  | fetchError
  | decodeError
deriving DecidableEq

/-- State of one capture session (handleDownloadVideo): the player state it
mutates, whether the AudioContext has been created and whether it has been
closed, the recorder state, whether the audio buffer source and the
frame-draw loop and the stop poll are active, and whether a downloadable
artifact was produced. -/
structure ExportState where
  player : PlayerState
  contextCreated : Bool
  contextClosed : Bool
  recorderRecording : Bool
  recorderStopped : Bool
  audioSourceActive : Bool
  drawLoopActive : Bool
  pollActive : Bool
  artifact : Bool
deriving DecidableEq

/-- The capture state before handleDownloadVideo has created any resource:
no context, no recorder, no active source, no loops, no artifact. -/
def initialExport (s : PlayerState) : ExportState :=
  { player := s, contextCreated := false, contextClosed := false,
    recorderRecording := false, recorderStopped := false,
    audioSourceActive := false, drawLoopActive := false,
    pollActive := false, artifact := false }

/-- The synchronous-through-await part of handleDownloadVideo, up to the
point where recording is running (or the function has returned or rejected):
it returns immediately when the video ref, the audio ref or the audio URL is
missing; otherwise it sets isRecording, clears isPlaying, pauses and zeroes
both tracks; returns if the canvas ref is missing; creates the AudioContext;
awaits the fetch and decode of the dub audio — when that rejects the async
function aborts with no catch, leaving the context open — and on success
starts the recorder, starts the audio buffer source, plays the video at the
computed video rate, starts the draw loop and the 100ms stop poll. -/
def handleDownloadVideoStart (env : FetchDecodeResult) (canvasPresent : Bool)
    (s : PlayerState) : ExportState :=
  match s.video, s.audio with
  | some v, some a =>
    if s.audioUrl then
      let s₁ := { s with isRecording := true, isPlaying := false,
                         video := some { v with paused := true, currentTime := 0 },
                         audio := some { a with paused := true, currentTime := 0 } }
      if canvasPresent then
        let e := { initialExport s₁ with contextCreated := true }
        match env with
        | .ok =>
          { e with
            recorderRecording := true, audioSourceActive := true,
            drawLoopActive := true, pollActive := true,
            player := { s₁ with
              video := some { v with paused := false, currentTime := 0,
                                     playbackRate := s.rates.video } } }
        | .fetchError => e
        | .decodeError => e
      else initialExport s₁
    else initialExport s
  | _, _ => initialExport s

/-- The onstop handler of the media recorder: it assembles the recorded
chunks into a blob and triggers its download, clears isRecording, closes the
AudioContext, and resets both track positions to 0. -/
def mediaRecorderOnStop (e : ExportState) : ExportState :=
  { e with
    artifact := true
    contextClosed := true
    player := { e.player with
      isRecording := false
      video := match e.player.video with
               | some v => some { v with currentTime := 0 }
               | none => none
      audio := match e.player.audio with
               | some a => some { a with currentTime := 0 }
               | none => none } }

/-- The recording duration computed at line 245 of the source: the video
duration divided by the computed video rate (the canonical target stop
time). -/
def recordingDurationSec (vDur : ℚ) (r : Rates) : ℚ := vDur / r.video

/-- One tick of the checkEnd stop poll at wall-clock elapsed seconds
elapsed: it stores elapsed / target * 100 in the recordingProgress state
(unclamped), and when elapsed has reached or exceeded the target it clears
the poll interval, cancels the frame-draw loop, stops the recorder, stops
the audio buffer source and pauses the video. -/
def checkEnd (target elapsed : ℚ) (e : ExportState) : ExportState :=
  let e₁ := { e with player :=
    { e.player with recordingProgress := elapsed / target * 100 } }
  if target ≤ elapsed then
    { e₁ with pollActive := false, drawLoopActive := false,
              recorderRecording := false, recorderStopped := true,
              audioSourceActive := false,
              player := { e₁.player with
                video := match e₁.player.video with
                         | some v => some { v with paused := true }
                         | none => none } }
  else e₁

/-- Index of the first tick of the 100ms poll whose elapsed time reaches the
target: ticks fire at elapsed = n / 10 seconds for n = 1, 2, ..., so the
stop tick is the ceiling of 10 * target. -/
def stopTick (target : ℚ) : ℕ := ⌈10 * target⌉₊

/-- Wall-clock elapsed seconds at the stop tick of the 100ms poll. -/
def stopElapsed (target : ℚ) : ℚ := (stopTick target : ℚ) / 10

/-- The displayed recording progress (line 305 of the source): the raw
recordingProgress state clamped from above by 100 before rendering. -/
def displayedProgress (q : ℚ) : ℚ := min q 100

/-- Sample video element: a loaded 10 second video at half position. -/
def sampleVideo : MediaEl :=
  { duration := 10, currentTime := 5, playbackRate := 1, muted := true, paused := false }

/-- Sample audio element: a loaded 20 second dub audio at 4 seconds. -/
def sampleAudio : MediaEl :=
  { duration := 20, currentTime := 4, playbackRate := 2, muted := false, paused := false }

/-- Sample player state: a 10 second video with a 20 second dub audio, rates
from the sync logic, currently playing. -/
def samplePlayer : PlayerState :=
  { video := some sampleVideo
    audio := some sampleAudio
    audioUrl := true
    isPlaying := true
    isMuted := true
    progress := 50
    durationState := 10
    rates := { video := 1, audio := 2 }
    isRecording := false
    recordingProgress := 0 }

/-- Sample video element during a capture: a quarter-second video playing
from position 0. -/
def recVideo : MediaEl :=
  { duration := 1 / 4, currentTime := 0, playbackRate := 1, muted := true, paused := false }

/-- Sample capture state in the Recording phase: context created and open,
recorder recording, audio source, draw loop and stop poll active. -/
def sampleRecording : ExportState :=
  { player :=
      { samplePlayer with
        isRecording := true
        isPlaying := false
        video := some recVideo
        rates := { video := 1, audio := 1 } }
    contextCreated := true
    contextClosed := false
    recorderRecording := true
    recorderStopped := false
    audioSourceActive := true
    drawLoopActive := true
    pollActive := true
    artifact := false }

/-- A capture attempt on the sample player whose dub audio fetch / decode
rejects during priming: the async function aborts between creating the
AudioContext and installing any handler. -/
def decodeFailSession : ExportState :=
  handleDownloadVideoStart FetchDecodeResult.decodeError true samplePlayer

/-- A completed capture on the sample player: priming succeeds, the stop
poll fires at elapsed 10 seconds (the target for a 10 second video at rate
1.0), and the recorder onstop handler runs. -/
def successSession : ExportState :=
  mediaRecorderOnStop
    (checkEnd (recordingDurationSec sampleVideo.duration samplePlayer.rates) 10
      (handleDownloadVideoStart FetchDecodeResult.ok true samplePlayer))

/-- Claim C1: for every pair of positive finite durations, the rates computed
by the sync logic satisfy videoDuration / videoRate = audioDuration / audioRate
within 1e-3 seconds (in the rational model the two quotients are exactly
equal, hence within the tolerance). -/
theorem computeRates_sync_tolerance (v a : ℚ) (hv : 0 < v) (ha : 0 < a) :
    |v / (computeRates v a).video - a / (computeRates v a).audio| ≤ 1 / 1000 := by
  have hv0 : v ≠ 0 := ne_of_gt hv
  have ha0 : a ≠ 0 := ne_of_gt ha
  unfold computeRates
  by_cases h : a > v
  · have key : a / (a / v) = v := by
      rw [div_div_eq_mul_div, mul_comm, mul_div_assoc, div_self ha0, mul_one]
    simp [h, key]
  · have key : v / (v / a) = a := by
      rw [div_div_eq_mul_div, mul_comm, mul_div_assoc, div_self hv0, mul_one]
    simp [h, key]

/-- Witness for C1 at the concrete pair (10, 20). -/
theorem computeRates_sync_tolerance_witness :
    (0 : ℚ) < 10 ∧ (0 : ℚ) < 20 ∧
      |10 / (computeRates 10 20).video - 20 / (computeRates 10 20).audio| ≤ 1 / 1000 :=
  ⟨by norm_num, by norm_num,
    computeRates_sync_tolerance 10 20 (by norm_num) (by norm_num)⟩

/-- Counterexample for claim C2: at video 10s, audio 20s the audio track is
the longer one, yet its computed rate is 2, not 1; it is the shorter video
track that keeps rate 1.0. This contradicts the claim that only the shorter
track is accelerated and the longer keeps rate exactly 1.0. -/
theorem computeRates_longer_track_accelerated_cex :
    (10 : ℚ) < 20 ∧ (computeRates 10 20).audio = 2 ∧
      (computeRates 10 20).video = 1 ∧ ((2 : ℚ) ≠ 1) := by
  refine ⟨by norm_num, ?_, ?_, by norm_num⟩ <;> simp [computeRates] <;> norm_num

/-- Claim C2 (amended): for every pair of positive finite durations, neither
computed rate is below 1.0; when durations differ it is the LONGER track that
is accelerated, the SHORTER track keeps rate exactly 1.0, and the common
wall-clock duration of both tracks equals the shorter natural duration. -/
theorem computeRates_no_slowdown_amended (v a : ℚ) (hv : 0 < v) (ha : 0 < a) :
    1 ≤ (computeRates v a).video ∧ 1 ≤ (computeRates v a).audio ∧
      (v < a → (computeRates v a).video = 1) ∧
      (a < v → (computeRates v a).audio = 1) ∧
      v / (computeRates v a).video = min v a ∧
      a / (computeRates v a).audio = min v a := by
  have hv0 : v ≠ 0 := ne_of_gt hv
  have ha0 : a ≠ 0 := ne_of_gt ha
  unfold computeRates
  by_cases h : a > v
  · have key : a / (a / v) = v := by
      rw [div_div_eq_mul_div, mul_comm, mul_div_assoc, div_self ha0, mul_one]
    have hmin : min v a = v := min_eq_left h.le
    refine ⟨by simp [h], ?_, by simp [h], ?_, by simp [h, hmin], ?_⟩
    · simp only [if_pos h]
      exact (one_le_div hv).mpr h.le
    · intro hav
      exact absurd h (not_lt.mpr hav.le)
    · simp only [if_pos h]
      simpa [hmin] using key
  · have hav : a ≤ v := not_lt.mp h
    have key : v / (v / a) = a := by
      rw [div_div_eq_mul_div, mul_comm, mul_div_assoc, div_self hv0, mul_one]
    have hmin : min v a = a := min_eq_right hav
    refine ⟨?_, by simp [h], ?_, by simp [h], ?_, by simp [h, hmin]⟩
    · simp only [if_neg h]
      exact (one_le_div ha).mpr hav
    · intro hva
      exact absurd hva (not_lt.mpr hav)
    · simp only [if_neg h]
      simpa [hmin] using key

/-- Witness for the amended C2 at the concrete pair (10, 20). -/
theorem computeRates_no_slowdown_amended_witness :
    (0 : ℚ) < 10 ∧ (0 : ℚ) < 20 ∧
      1 ≤ (computeRates 10 20).video ∧ 1 ≤ (computeRates 10 20).audio ∧
      ((10 : ℚ) < 20 → (computeRates 10 20).video = 1) ∧
      ((20 : ℚ) < 10 → (computeRates 10 20).audio = 1) ∧
      10 / (computeRates 10 20).video = min (10 : ℚ) 20 ∧
      20 / (computeRates 10 20).audio = min (10 : ℚ) 20 :=
  ⟨by norm_num, by norm_num,
    computeRates_no_slowdown_amended 10 20 (by norm_num) (by norm_num)⟩

/-- Counterexample for claim C3, two failures at concrete inputs. First, at
video 10s, audio 20s (durations differing by far more than 1e-3) BOTH rates
are at least 1.0 (the non-accelerated rate is exactly 1.0, and 1.0 is at
least 1.0), so it is false that exactly one rate is at least 1.0. Second, at
video 10.0005s, audio 10s, the durations are equal within epsilon 1e-3 yet
the video rate is 20001/20000, not exactly 1.0: the source compares durations
exactly and applies no epsilon. -/
theorem computeRates_exactly_one_cex :
    (1 ≤ (computeRates 10 20).video ∧ 1 ≤ (computeRates 10 20).audio ∧
        ¬|(10 : ℚ) - 20| ≤ 1 / 1000) ∧
      (|(20001 / 2000 : ℚ) - 10| ≤ 1 / 1000 ∧
        (computeRates (20001 / 2000) 10).video ≠ 1) := by
  refine ⟨⟨?_, ?_, by norm_num⟩, by rw [abs_le]; constructor <;> norm_num, ?_⟩ <;>
    simp [computeRates] <;> norm_num

/-- Claim C3 (amended): for every pair of positive finite durations, exactly
one of the two rates is strictly greater than 1.0 while the other is exactly
1.0, except when the two durations are EXACTLY equal (the source applies no
epsilon), in which case both rates equal exactly 1.0. -/
theorem computeRates_exactly_one_amended (v a : ℚ) (hv : 0 < v) (ha : 0 < a) :
    (v = a → (computeRates v a).video = 1 ∧ (computeRates v a).audio = 1) ∧
      (v ≠ a →
        (1 < (computeRates v a).video ∧ (computeRates v a).audio = 1) ∨
          ((computeRates v a).video = 1 ∧ 1 < (computeRates v a).audio)) := by
  have hv0 : v ≠ 0 := ne_of_gt hv
  have ha0 : a ≠ 0 := ne_of_gt ha
  constructor
  · intro hva
    subst hva
    simp [computeRates, div_self hv0]
  · intro hne
    rcases lt_or_gt_of_ne hne with hlt | hgt
    · right
      have h : a > v := hlt
      constructor
      · simp [computeRates, h]
      · simp only [computeRates, if_pos h]
        exact (one_lt_div hv).mpr hlt
    · left
      have h : ¬a > v := not_lt.mpr hgt.le
      constructor
      · simp only [computeRates, if_neg h]
        exact (one_lt_div ha).mpr hgt
      · simp [computeRates, h]

/-- Witness for the amended C3 at the concrete pair (10, 20). -/
theorem computeRates_exactly_one_amended_witness :
    ((10 : ℚ) = 20 → (computeRates 10 20).video = 1 ∧ (computeRates 10 20).audio = 1) ∧
      ((10 : ℚ) ≠ 20 →
        (1 < (computeRates 10 20).video ∧ (computeRates 10 20).audio = 1) ∨
          ((computeRates 10 20).video = 1 ∧ 1 < (computeRates 10 20).audio)) :=
  computeRates_exactly_one_amended 10 20 (by norm_num) (by norm_num)

/-- Claim C4: for every percent in [0, 100], handleSeek sets the position of
each track independently to percent / 100 times that track own duration, so
when both durations are positive both tracks end at equal fractional
progress percent / 100. -/
theorem handleSeek_percent_maps_each_track (pct : ℚ) (s : PlayerState) (v a : MediaEl)
    (hv : s.video = some v) (ha : s.audio = some a)
    (h0 : 0 ≤ pct) (h100 : pct ≤ 100) :
    (handleSeek pct s).video = some { v with currentTime := pct / 100 * v.duration } ∧
    (handleSeek pct s).audio = some { a with currentTime := pct / 100 * a.duration } ∧
    (0 < v.duration → pct / 100 * v.duration / v.duration = pct / 100) ∧
    (0 < a.duration → pct / 100 * a.duration / a.duration = pct / 100) := by
  refine ⟨?_, ?_, ?_, ?_⟩
  · simp [handleSeek, hv, ha]
  · simp [handleSeek, hv, ha]
  · intro h
    exact mul_div_cancel_right₀ _ (ne_of_gt h)
  · intro h
    exact mul_div_cancel_right₀ _ (ne_of_gt h)

/-- Witness for C4: scenario E, seek(50) on a 10 second video with a 20
second audio sets the video position to 5 seconds and the audio position to
10 seconds, both at fractional progress 1/2. -/
theorem handleSeek_percent_maps_each_track_witness :
    (handleSeek 50 samplePlayer).video =
        some { sampleVideo with currentTime := 50 / 100 * sampleVideo.duration } ∧
    (handleSeek 50 samplePlayer).audio =
        some { sampleAudio with currentTime := 50 / 100 * sampleAudio.duration } ∧
    (0 < sampleVideo.duration →
      (50 : ℚ) / 100 * sampleVideo.duration / sampleVideo.duration = 50 / 100) ∧
    (0 < sampleAudio.duration →
      (50 : ℚ) / 100 * sampleAudio.duration / sampleAudio.duration = 50 / 100) :=
  handleSeek_percent_maps_each_track 50 samplePlayer sampleVideo sampleAudio
    rfl rfl (by norm_num) (by norm_num)

/-- Claim C5: on a position-update tick with the dub audio track present, the
drift corrector never writes the video element, mutates the audio position
exactly when the fractional progress of the two tracks differs by more than
0.05 — in which case it sets the audio position to videoPercent times the
audio duration — and performs no correction while Paused (no tick is
delivered then). -/
theorem driftCorrector_iff (s : PlayerState) (v a : MediaEl)
    (hv : s.video = some v) (ha : s.audio = some a) (hurl : s.audioUrl = true)
    (hvd : 0 < v.duration) (had : 0 < a.duration) :
    (s.isPlaying = false → positionUpdateTick s = s) ∧
    (s.isPlaying = true →
      (positionUpdateTick s).video = s.video ∧
      (1 / 20 < |v.currentTime / v.duration - a.currentTime / a.duration| →
        (positionUpdateTick s).audio =
          some { a with currentTime := v.currentTime / v.duration * a.duration } ∧
        (positionUpdateTick s).audio ≠ s.audio) ∧
      (¬1 / 20 < |v.currentTime / v.duration - a.currentTime / a.duration| →
        (positionUpdateTick s).audio = s.audio)) := by
  constructor
  · intro h
    simp [positionUpdateTick, h]
  · intro h
    have had0 : a.duration ≠ 0 := ne_of_gt had
    refine ⟨?_, ?_, ?_⟩
    · by_cases hd : (20 : ℚ)⁻¹ < |v.currentTime / v.duration - a.currentTime / a.duration| <;>
        simp [positionUpdateTick, handleTimeUpdate, h, hv, ha, hurl, hd]
    · intro hd
      rw [one_div] at hd
      have hne : v.currentTime / v.duration * a.duration ≠ a.currentTime := by
        intro heq
        have haP : a.currentTime / a.duration * a.duration = a.currentTime :=
          div_mul_cancel₀ _ had0
        have hPeq : v.currentTime / v.duration = a.currentTime / a.duration :=
          mul_right_cancel₀ had0 (by rw [heq, haP])
        rw [hPeq] at hd
        simp at hd
        exact absurd hd (by norm_num)
      constructor
      · simp [positionUpdateTick, handleTimeUpdate, h, hv, ha, hurl, hd]
      · simp [positionUpdateTick, handleTimeUpdate, h, hv, ha, hurl, hd]
        intro hcontra
        exact hne (congrArg MediaEl.currentTime hcontra)
    · intro hd
      rw [one_div] at hd
      simp [positionUpdateTick, handleTimeUpdate, h, hv, ha, hurl, hd]

/-- Witness for C5 at a concrete playing state: video percent 1/2, audio
percent 1/5, drift 3/10 exceeds 0.05, so the audio position is forced to
(1/2) * 20 = 10 seconds. -/
theorem driftCorrector_iff_witness :
    samplePlayer.isPlaying = true ∧
    (1 : ℚ) / 20 <
      |sampleVideo.currentTime / sampleVideo.duration -
        sampleAudio.currentTime / sampleAudio.duration| ∧
    (positionUpdateTick samplePlayer).audio =
      some { sampleAudio with currentTime :=
        sampleVideo.currentTime / sampleVideo.duration * sampleAudio.duration } := by
  have h := driftCorrector_iff samplePlayer sampleVideo sampleAudio
    rfl rfl rfl (by norm_num [sampleVideo]) (by norm_num [sampleAudio])
  have hd : (1 : ℚ) / 20 <
      |sampleVideo.currentTime / sampleVideo.duration -
        sampleAudio.currentTime / sampleAudio.duration| := by
    norm_num [sampleVideo, sampleAudio]
    rw [abs_of_nonneg] <;> norm_num
  exact ⟨rfl, hd, ((h.2 rfl).2.1 hd).1⟩

/-- Claim C9: toggleMute changes only the muted flag of the video element and
the mirrored isMuted state — the audio element, the play state, the rates,
the progress and the recording flag are unchanged, and the video element
keeps its position, rate and paused flag — and once the dub audio metadata is
loaded, syncDurations forces the video element muted and sets isMuted. -/
theorem toggleMute_only_mute_fields (s : PlayerState) (v a : MediaEl)
    (hv : s.video = some v) :
    ((toggleMute s).video = some { v with muted := !v.muted } ∧
     (toggleMute s).isMuted = !s.isMuted ∧
     (toggleMute s).audio = s.audio ∧
     (toggleMute s).isPlaying = s.isPlaying ∧
     (toggleMute s).rates = s.rates ∧
     (toggleMute s).progress = s.progress ∧
     (toggleMute s).isRecording = s.isRecording) ∧
    (s.audio = some a → s.audioUrl = true →
      v.duration ≠ 0 → a.duration ≠ 0 →
      (syncDurations s).video =
        some { v with playbackRate := (computeRates v.duration a.duration).video,
                      muted := true } ∧
      (syncDurations s).isMuted = true) := by
  constructor
  · refine ⟨?_, ?_, ?_, ?_, ?_, ?_, ?_⟩ <;> simp [toggleMute, hv]
  · intro ha hurl hvd had
    constructor <;> simp [syncDurations, hv, ha, hurl, hvd, had]

/-- Witness for C9 at the sample player state. -/
theorem toggleMute_only_mute_fields_witness :
    ((toggleMute samplePlayer).video = some { sampleVideo with muted := !sampleVideo.muted } ∧
     (toggleMute samplePlayer).isMuted = !samplePlayer.isMuted ∧
     (toggleMute samplePlayer).audio = samplePlayer.audio ∧
     (toggleMute samplePlayer).isPlaying = samplePlayer.isPlaying ∧
     (toggleMute samplePlayer).rates = samplePlayer.rates ∧
     (toggleMute samplePlayer).progress = samplePlayer.progress ∧
     (toggleMute samplePlayer).isRecording = samplePlayer.isRecording) ∧
    (samplePlayer.audio = some sampleAudio → samplePlayer.audioUrl = true →
      sampleVideo.duration ≠ 0 → sampleAudio.duration ≠ 0 →
      (syncDurations samplePlayer).video =
        some { sampleVideo with
          playbackRate := (computeRates sampleVideo.duration sampleAudio.duration).video,
          muted := true } ∧
      (syncDurations samplePlayer).isMuted = true) :=
  toggleMute_only_mute_fields samplePlayer sampleVideo sampleAudio rfl

/-- Claim C10: when no dub audio URL is present, or either media element ref
is absent, handleDownloadVideo returns before any mutation: the player state
is unchanged, and no context, recorder, audio source, draw loop, stop poll or
artifact is created. -/
theorem handleDownloadVideo_noop_without_audio (env : FetchDecodeResult)
    (canvasPresent : Bool) (s : PlayerState)
    (h : s.audioUrl = false ∨ s.video = none ∨ s.audio = none) :
    handleDownloadVideoStart env canvasPresent s = initialExport s ∧
    (initialExport s).player = s ∧
    (initialExport s).contextCreated = false ∧
    (initialExport s).contextClosed = false ∧
    (initialExport s).recorderRecording = false ∧
    (initialExport s).audioSourceActive = false ∧
    (initialExport s).drawLoopActive = false ∧
    (initialExport s).pollActive = false ∧
    (initialExport s).artifact = false := by
  refine ⟨?_, rfl, rfl, rfl, rfl, rfl, rfl, rfl, rfl⟩
  rcases h with h | h | h <;>
    cases hv : s.video <;> cases ha : s.audio <;>
      simp_all [handleDownloadVideoStart]

/-- Witness for C10: the sample player with the audio URL removed. -/
theorem handleDownloadVideo_noop_without_audio_witness :
    handleDownloadVideoStart FetchDecodeResult.ok true { samplePlayer with audioUrl := false } =
      initialExport { samplePlayer with audioUrl := false } ∧
    (initialExport { samplePlayer with audioUrl := false }).player =
      { samplePlayer with audioUrl := false } ∧
    (initialExport { samplePlayer with audioUrl := false }).contextCreated = false ∧
    (initialExport { samplePlayer with audioUrl := false }).contextClosed = false ∧
    (initialExport { samplePlayer with audioUrl := false }).recorderRecording = false ∧
    (initialExport { samplePlayer with audioUrl := false }).audioSourceActive = false ∧
    (initialExport { samplePlayer with audioUrl := false }).drawLoopActive = false ∧
    (initialExport { samplePlayer with audioUrl := false }).pollActive = false ∧
    (initialExport { samplePlayer with audioUrl := false }).artifact = false :=
  handleDownloadVideo_noop_without_audio FetchDecodeResult.ok true
    { samplePlayer with audioUrl := false } (Or.inl rfl)

/-- Claim C6: during capture, the 100ms stop poll compares wall-clock elapsed
time against the target videoDuration / videoRate; every tick strictly before
the target leaves the poll, the draw loop, the recorder, the audio source and
the video untouched; the first tick whose elapsed time reaches or exceeds the
target cancels the poll and the draw loop, stops the recorder and the audio
source and pauses the video; and the elapsed time at that stop tick is within
one poll interval (0.1s) of the target. -/
theorem capture_stop_within_interval (vDur t : ℚ) (r : Rates) (e : ExportState)
    (v : MediaEl) (hteq : t = recordingDurationSec vDur r) (ht : 0 < t)
    (hv : e.player.video = some v) :
    (t ≤ stopElapsed t ∧ stopElapsed t < t + 1 / 10) ∧
    (∀ n : ℕ, n < stopTick t → (n : ℚ) / 10 < t) ∧
    (∀ elapsed : ℚ, elapsed < t →
      (checkEnd t elapsed e).pollActive = e.pollActive ∧
      (checkEnd t elapsed e).drawLoopActive = e.drawLoopActive ∧
      (checkEnd t elapsed e).recorderRecording = e.recorderRecording ∧
      (checkEnd t elapsed e).recorderStopped = e.recorderStopped ∧
      (checkEnd t elapsed e).audioSourceActive = e.audioSourceActive ∧
      (checkEnd t elapsed e).player.video = e.player.video) ∧
    ((checkEnd t (stopElapsed t) e).pollActive = false ∧
     (checkEnd t (stopElapsed t) e).drawLoopActive = false ∧
     (checkEnd t (stopElapsed t) e).recorderRecording = false ∧
     (checkEnd t (stopElapsed t) e).recorderStopped = true ∧
     (checkEnd t (stopElapsed t) e).audioSourceActive = false ∧
     (checkEnd t (stopElapsed t) e).player.video = some { v with paused := true }) := by
  have hle : (10 * t : ℚ) ≤ (⌈10 * t⌉₊ : ℚ) := Nat.le_ceil _
  have hub : ((⌈10 * t⌉₊ : ℕ) : ℚ) < 10 * t + 1 :=
    Nat.ceil_lt_add_one (by positivity)
  have hstople : t ≤ stopElapsed t := by
    unfold stopElapsed stopTick
    linarith
  refine ⟨⟨hstople, ?_⟩, ?_, ?_, ?_⟩
  · unfold stopElapsed stopTick
    linarith
  · intro n hn
    have : (n : ℚ) < 10 * t := by
      exact_mod_cast Nat.lt_ceil.mp hn
    linarith
  · intro elapsed hel
    have hnot : ¬t ≤ elapsed := not_le.mpr hel
    refine ⟨?_, ?_, ?_, ?_, ?_, ?_⟩ <;> simp [checkEnd, hnot]
  · refine ⟨?_, ?_, ?_, ?_, ?_, ?_⟩ <;> simp [checkEnd, hstople, hv]

/-- Witness for C6: a quarter-second target; the poll ticks at 0.1s, 0.2s do
not stop the capture, and the stop tick at 0.3s stops everything, within one
poll interval of 0.25s. -/
theorem capture_stop_within_interval_witness :
    ((1 / 4 : ℚ) ≤ stopElapsed (1 / 4) ∧ stopElapsed (1 / 4) < 1 / 4 + 1 / 10) ∧
    (∀ n : ℕ, n < stopTick (1 / 4) → (n : ℚ) / 10 < 1 / 4) ∧
    (∀ elapsed : ℚ, elapsed < 1 / 4 →
      (checkEnd (1 / 4) elapsed sampleRecording).pollActive = sampleRecording.pollActive ∧
      (checkEnd (1 / 4) elapsed sampleRecording).drawLoopActive = sampleRecording.drawLoopActive ∧
      (checkEnd (1 / 4) elapsed sampleRecording).recorderRecording = sampleRecording.recorderRecording ∧
      (checkEnd (1 / 4) elapsed sampleRecording).recorderStopped = sampleRecording.recorderStopped ∧
      (checkEnd (1 / 4) elapsed sampleRecording).audioSourceActive = sampleRecording.audioSourceActive ∧
      (checkEnd (1 / 4) elapsed sampleRecording).player.video = sampleRecording.player.video) ∧
    ((checkEnd (1 / 4) (stopElapsed (1 / 4)) sampleRecording).pollActive = false ∧
     (checkEnd (1 / 4) (stopElapsed (1 / 4)) sampleRecording).drawLoopActive = false ∧
     (checkEnd (1 / 4) (stopElapsed (1 / 4)) sampleRecording).recorderRecording = false ∧
     (checkEnd (1 / 4) (stopElapsed (1 / 4)) sampleRecording).recorderStopped = true ∧
     (checkEnd (1 / 4) (stopElapsed (1 / 4)) sampleRecording).audioSourceActive = false ∧
     (checkEnd (1 / 4) (stopElapsed (1 / 4)) sampleRecording).player.video =
       some { recVideo with paused := true }) :=
  capture_stop_within_interval (1 / 4) (1 / 4) { video := 1, audio := 1 }
    sampleRecording recVideo (by norm_num [recordingDurationSec]) (by norm_num) rfl

/-- Claim C7 is violated by the code: on the dub-audio fetch / decode failure
path the async handleDownloadVideo rejects with no catch, so the
AudioContext that was just created is never closed and the isRecording flag
is never cleared — the processing context leaks and the interactive preview
state is not restored — whereas on the success path the onstop handler does
close the context, clear isRecording and reset both positions to 0. -/
theorem decodeFailure_leaks_audioContext :
    (decodeFailSession.contextCreated = true ∧
     decodeFailSession.contextClosed = false ∧
     decodeFailSession.player.isRecording = true ∧
     (handleDownloadVideoStart FetchDecodeResult.fetchError true samplePlayer).contextClosed =
       false) ∧
    (successSession.contextClosed = true ∧
     successSession.player.isRecording = false ∧
     successSession.player.video = some { sampleVideo with currentTime := 0, paused := true } ∧
     successSession.player.audio = some { sampleAudio with currentTime := 0, paused := true }) := by
  refine ⟨⟨?_, ?_, ?_, ?_⟩, ?_, ?_, ?_, ?_⟩ <;>
    norm_num [decodeFailSession, successSession, handleDownloadVideoStart,
      mediaRecorderOnStop, checkEnd, initialExport, samplePlayer, sampleVideo,
      sampleAudio, recordingDurationSec]

/-- Counterexample for claim C8: with a quarter-second target, the stop tick
of the 100ms poll fires at elapsed 0.3s and stores recordingProgress = 120
while the recorder is still recording — the raw reported percentage is not
clamped and exceeds 100. -/
theorem recordingProgress_exceeds_100_cex :
    sampleRecording.recorderRecording = true ∧
    (3 : ℚ) / 10 = stopElapsed (recordingDurationSec (1 / 4) { video := 1, audio := 1 }) ∧
    (checkEnd (recordingDurationSec (1 / 4) { video := 1, audio := 1 }) (3 / 10)
        sampleRecording).player.recordingProgress = 120 ∧
    ¬(checkEnd (recordingDurationSec (1 / 4) { video := 1, audio := 1 }) (3 / 10)
        sampleRecording).player.recordingProgress ≤ 100 := by
  have ht : recordingDurationSec (1 / 4) { video := 1, audio := 1 } = 1 / 4 := by
    norm_num [recordingDurationSec]
  have hceil : stopTick ((1 : ℚ) / 4) = 3 := by
    rw [stopTick, Nat.ceil_eq_iff (by norm_num)]
    norm_num
  refine ⟨rfl, ?_, ?_, ?_⟩
  · rw [ht, stopElapsed, hceil]
    norm_num
  · rw [ht]
    norm_num [checkEnd]
  · rw [ht]
    norm_num [checkEnd]

/-- Helper: the stop poll tick always stores elapsed / target * 100 in the
recordingProgress state, in both the continue and the stop branch. -/
theorem checkEnd_progress_eq (target elapsed : ℚ) (e : ExportState) :
    (checkEnd target elapsed e).player.recordingProgress = elapsed / target * 100 := by
  unfold checkEnd
  split <;> rfl

/-- Claim C8 (amended): while Recording the reported raw progress
elapsed / target * 100 is monotonically non-decreasing across poll ticks and
nonnegative; it is at most 100 on every tick whose elapsed time is strictly
below the target (that is, on every tick except the stop tick, where it may
exceed 100); and the displayed value, clamped by min with 100 at render
time, always lies in [0, 100]. -/
theorem recordingProgress_amended (target e₁ e₂ : ℚ) (st : ExportState)
    (ht : 0 < target) (h0 : 0 ≤ e₁) (h12 : e₁ ≤ e₂) :
    (checkEnd target e₁ st).player.recordingProgress ≤
        (checkEnd target e₂ st).player.recordingProgress ∧
    0 ≤ (checkEnd target e₁ st).player.recordingProgress ∧
    (e₁ < target → (checkEnd target e₁ st).player.recordingProgress ≤ 100) ∧
    0 ≤ displayedProgress (checkEnd target e₂ st).player.recordingProgress ∧
    displayedProgress (checkEnd target e₂ st).player.recordingProgress ≤ 100 := by
  rw [checkEnd_progress_eq, checkEnd_progress_eq, displayedProgress]
  have h02 : (0 : ℚ) ≤ e₂ := le_trans h0 h12
  refine ⟨?_, by positivity, ?_, ?_, min_le_right _ _⟩
  · exact mul_le_mul_of_nonneg_right ((div_le_div_right ht).mpr h12) (by norm_num)
  · intro h
    have hle1 : e₁ / target ≤ 1 := (div_le_one ht).mpr h.le
    nlinarith
  · exact le_min (by positivity) (by norm_num)

/-- Witness for the amended C8 at concrete ticks 0.1s and 0.2s of a
quarter-second target. -/
theorem recordingProgress_amended_witness :
    (checkEnd (1 / 4) (1 / 10) sampleRecording).player.recordingProgress ≤
        (checkEnd (1 / 4) (1 / 5) sampleRecording).player.recordingProgress ∧
    0 ≤ (checkEnd (1 / 4) (1 / 10) sampleRecording).player.recordingProgress ∧
    ((1 / 10 : ℚ) < 1 / 4 →
      (checkEnd (1 / 4) (1 / 10) sampleRecording).player.recordingProgress ≤ 100) ∧
    0 ≤ displayedProgress (checkEnd (1 / 4) (1 / 5) sampleRecording).player.recordingProgress ∧
    displayedProgress (checkEnd (1 / 4) (1 / 5) sampleRecording).player.recordingProgress ≤ 100 :=
  recordingProgress_amended (1 / 4) (1 / 10) (1 / 5) sampleRecording
    (by norm_num) (by norm_num) (by norm_num)
